import Mathlib

/-!
Verification of the capture → record → persist → query pipeline of the
hosting repository.

The embedding translates the two core components:

* the Broadcaster component (source file `part_001`): camera acquisition
  (`startCamera`), `startStreaming`, the `ondataavailable` / duration-interval
  handlers, `stopStreaming` and `saveRecording`;
* the VideoGallery component (source file `part_000`): `loadSavedVideos`,
  `deleteVideo` and the `filteredAndSortedVideos` filter/sort pipeline.

Modelling conventions:

* `localStorage` is modelled as a record with one field per key actually used
  by the source (`streamRecordings`, written by the broadcaster, and
  `savedVideos`, read and written by the gallery).  `JSON.parse(getItem(k) ||
  '[]')` on a missing key is the empty list, so each field simply holds a list.
* JavaScript timestamps are modelled as `Int` milliseconds since the epoch;
  `Date.prototype.toISOString` (used only to build the saved filename and the
  `date` field) is modelled as a canonical injective rendering of that number,
  and `Date.prototype.toDateString` equality (local calendar date equality) is
  modelled as equality of the floor-division day index after adding the local
  timezone offset `tz`.
* `MediaRecorder` chunks (`Blob`s) are modelled by their size; the handler in
  the source only inspects `event.data.size`.
* `Array.prototype.sort` is guaranteed stable with the supplied comparator, so
  it is modelled by `List.mergeSort` with `le a b ↔ comparator a b ≤ 0`;
  `String.prototype.localeCompare` is modelled as code-unit lexicographic
  comparison.
* The single-threaded event model of the source is made explicit: cadence
  events (duration-interval ticks and `dataavailable` events) are an input
  trace, and the final `dataavailable` flush that `MediaRecorder.stop()` fires
  for the in-flight data is an explicit `Option Chunk` argument of
  `stopStreaming`.
* React state reads inside closures are render-time snapshots:
  `startStreaming` installs `mediaRecorder.onstop = () => saveRecording()`,
  and that arrow function closes over the `saveRecording` of the render in
  which the start click ran, whose `recordingDuration` is the value of that
  render — not the live counter advanced later by the interval's functional
  updates.  The embedding therefore carries this captured value explicitly
  (`onstopDuration`), set by `startStreaming` and read by `saveRecording`;
  `recordedChunksRef`, `streamId` and `localStorage` are refs/props/stores
  and are read live.
-/

namespace Hosting

/-- One recorded media chunk; the source only ever inspects `data.size`. -/
structure Chunk where
  size : Nat
deriving DecidableEq, Repr

/-- One `MediaStreamTrack`; the source only stops tracks (`track.stop()`),
so the modelled observable state is the stopped flag. -/
structure Track where
  stopped : Bool
deriving DecidableEq, Repr

/-- The record shape pushed by `saveRecording` onto the
`'streamRecordings'` collection: `{id: Date.now(), streamId, filename,
date: toISOString(), duration, url}`.  `id` and `date` are epoch-millisecond
numbers (see the modelling conventions above). -/
structure StoredRecording where
  id : Int
  streamId : String
  filename : String
  date : Int
  duration : Nat
  url : String
deriving DecidableEq, Repr

/-- The record shape the gallery (`VideoGallery`) reads from the
`'savedVideos'` collection: `{id: string, filename, url, timestamp, duration,
streamId}`. -/
structure SavedVideo where
  id : String
  filename : String
  url : String
  timestamp : Int
  duration : Nat
  streamId : String
deriving DecidableEq, Repr

/-- The browser `localStorage`, restricted to the two keys the source uses. -/
structure LocalStorage where
  streamRecordings : List StoredRecording
  savedVideos : List SavedVideo
deriving DecidableEq, Repr

/-- `MediaRecorder.state` as the source observes it (`'inactive'` vs. a
started recorder). -/
inductive MRState where
  | inactive
  | recording
deriving DecidableEq, Repr

/-- State of the Broadcaster component: the `useState`/`useRef` cells of the
source that the recording pipeline reads or writes. -/
structure BState where
  isStreaming : Bool
  isRecording : Bool
  recordingDuration : Nat
  /-- The `recordingDuration` value captured by the `saveRecording` closure
  that `startStreaming` installed as `mediaRecorder.onstop`: a render-time
  snapshot taken when the run was started, not the live counter. -/
  onstopDuration : Nat
  stream : Option (List Track)
  mrState : MRState
  recordedChunks : List Chunk
  timerActive : Bool
  storage : LocalStorage
deriving DecidableEq, Repr

/-- Broadcaster state right after mount: all `useState` initial values from
the source (`isStreaming = false`, `isRecording = false`,
`recordingDuration = 0`), an empty recorder, and the outcome of
`startCamera` (`some tracks` on success, `none` when `getUserMedia` failed
and the catch branch left `streamRef.current` null). -/
def mountedBroadcaster (stream : Option (List Track)) (st : LocalStorage) :
    BState :=
  { isStreaming := false
    isRecording := false
    recordingDuration := 0
    onstopDuration := 0
    stream := stream
    mrState := .inactive
    recordedChunks := []
    timerActive := false
    storage := st }

/-- Model of `new Date(now).toISOString()` (and of `Date.now()` rendered into
the filename): a canonical injective rendering of the epoch-millisecond
clock. -/
def isoTimestamp (now : Int) : String :=
  toString now

/-- The record `saveRecording` pushes:
`{id: Date.now(), streamId, filename: stream-<id>-<timestamp>.webm,
date: toISOString(), duration: recordingDuration, url}`. -/
def newRecording (sid : String) (now : Int) (url : String) (dur : Nat) :
    StoredRecording :=
  { id := now
    streamId := sid
    filename := "stream-" ++ sid ++ "-" ++ isoTimestamp now ++ ".webm"
    date := now
    duration := dur
    url := url }

/-- `saveRecording` from the source: early return when
`recordedChunks.length === 0` (a live ref read); otherwise read the
`'streamRecordings'` collection, push one record, and write it back.  The
record's `duration` is the `recordingDuration` of the closure that
`onstop` invokes — the stale snapshot captured at start
(`onstopDuration`), not the live counter. -/
def saveRecording (sid : String) (now : Int) (url : String) (s : BState) :
    BState :=
  if s.recordedChunks.length = 0 then s
  else
    { s with
        storage.streamRecordings :=
          s.storage.streamRecordings ++
            [newRecording sid now url s.onstopDuration] }

/-- The `mediaRecorder.ondataavailable` handler: push the blob when
`event.data.size > 0`. -/
def onDataAvailable (c : Chunk) (s : BState) : BState :=
  if 0 < c.size then { s with recordedChunks := s.recordedChunks ++ [c] }
  else s

/-- The duration `setInterval` callback:
`setRecordingDuration(prev => prev + 1)`; it only fires while the interval
has not been cleared. -/
def onDurationTick (s : BState) : BState :=
  if s.timerActive then { s with recordingDuration := s.recordingDuration + 1 }
  else s

/-- `startStreaming` from the source: `if (!streamRef.current) return;` —
otherwise set the streaming/recording flags, reset the duration, create a
fresh recorder with an empty chunk list, install the `onstop` handler
(whose `saveRecording` closure captures this render's `recordingDuration` —
the value before the reset commits), and start the duration interval. -/
def startStreaming (s : BState) : BState :=
  match s.stream with
  | none => s
  | some _ =>
      { s with
          isStreaming := true
          isRecording := true
          recordingDuration := 0
          onstopDuration := s.recordingDuration
          mrState := .recording
          recordedChunks := []
          timerActive := true }

/-- `streamRef.current.getTracks().forEach(track => track.stop())`. -/
def stopTracks (o : Option (List Track)) : Option (List Track) :=
  o.map (List.map fun _ => { stopped := true })

/-- `stopStreaming` from the source: clear the flags; if the recorder is not
`'inactive'`, `mediaRecorder.stop()` fires a final `dataavailable` with the
in-flight data (`flush`) and then `onstop`, which runs `saveRecording`;
clear the duration interval; stop every track of the stream. -/
def stopStreaming (sid : String) (now : Int) (url : String)
    (flush : Option Chunk) (s : BState) : BState :=
  let s1 := { s with isStreaming := false, isRecording := false }
  let s2 :=
    if s1.mrState = .recording then
      let s3 :=
        match flush with
        | some c => onDataAvailable c s1
        | none => s1
      saveRecording sid now url { s3 with mrState := .inactive }
    else s1
  let s4 := { s2 with timerActive := false }
  { s4 with stream := stopTracks s4.stream }

/-- An event of a recording run: a duration-interval tick or a
`dataavailable` event carrying one chunk. -/
inductive REvent where
  | tick
  | data (c : Chunk)
deriving DecidableEq, Repr

/-- Dispatch one run event to its handler. -/
def stepEvent : REvent → BState → BState
  | .tick => onDurationTick
  | .data c => onDataAvailable c

/-- Process a trace of run events in order. -/
def runEvents (evs : List REvent) (s : BState) : BState :=
  evs.foldl (fun st e => stepEvent e st) s

/-- Number of duration-interval ticks in a trace. -/
def countTicks : List REvent → Nat
  | [] => 0
  | .tick :: t => countTicks t + 1
  | .data _ :: t => countTicks t

/-- The chunks a trace actually emits: the payloads of its non-empty
`dataavailable` events, in order. -/
def emittedChunks : List REvent → List Chunk
  | [] => []
  | .tick :: t => emittedChunks t
  | .data c :: t => if 0 < c.size then c :: emittedChunks t else emittedChunks t

/-- The chunks contributed by the final flush `MediaRecorder.stop()` fires. -/
def flushChunks (flush : Option Chunk) : List Chunk :=
  match flush with
  | some c => if 0 < c.size then [c] else []
  | none => []

/-- Every track of the (possibly absent) stream is stopped. -/
def tracksAllStopped (s : BState) : Bool :=
  match s.stream with
  | none => true
  | some ts => ts.all fun t => t.stopped

/-! ## Gallery (VideoGallery component) -/

/-- State of the VideoGallery component: the persisted store plus the
`savedVideos` and `selectedVideo` state cells.  The query parameters
(`searchTerm`, `sortBy`, `filterBy`) are passed to the query pipeline as
arguments. -/
structure GalleryState where
  storage : LocalStorage
  savedVideos : List SavedVideo
  selectedVideo : Option SavedVideo
deriving DecidableEq, Repr

/-- The gallery's read of the persisted catalog:
`JSON.parse(localStorage.getItem('savedVideos') || '[]')`. -/
def loadList (st : LocalStorage) : List SavedVideo :=
  st.savedVideos

/-- `loadSavedVideos` from the source: read the `'savedVideos'` collection
into component state. -/
def loadSavedVideos (g : GalleryState) : GalleryState :=
  { g with savedVideos := loadList g.storage }

/-- `deleteVideo` from the source: filter the entry out of the state list,
write the filtered list back to `'savedVideos'`, and clear the selection if
the selected video has the removed id. -/
def deleteVideo (videoId : String) (g : GalleryState) : GalleryState :=
  let updated := g.savedVideos.filter fun v => v.id != videoId
  { g with
      savedVideos := updated
      storage.savedVideos := updated
      selectedVideo :=
        match g.selectedVideo with
        | some v => if v.id == videoId then none else some v
        | none => none }

/-- The selected video (if any) does not have the given id. -/
def selectedIdDiffers (videoId : String) (g : GalleryState) : Bool :=
  match g.selectedVideo with
  | some v => v.id != videoId
  | none => true

/-! ## Query pipeline (filteredAndSortedVideos) -/

/-- `String.prototype.toLowerCase`, per character. -/
def lowerStr (s : String) : String :=
  ⟨s.data.map Char.toLower⟩

/-- `hay.includes(sub)`: substring containment. -/
def jsIncludes (hay sub : String) : Bool :=
  decide (sub.data <:+: hay.data)

/-- The search part of the filter: the lowercased term occurs in the
lowercased `filename` or the lowercased `streamId`. -/
def matchesSearch (term : String) (v : SavedVideo) : Bool :=
  jsIncludes (lowerStr v.filename) (lowerStr term) ||
    jsIncludes (lowerStr v.streamId) (lowerStr term)

/-- The gallery's `filterBy` selector values. -/
inductive TimeFilter where
  | all
  | today
  | week
  | month
deriving DecidableEq, Repr

/-- The gallery's `sortBy` selector values. -/
inductive SortKey where
  | date
  | duration
  | name
deriving DecidableEq, Repr

/-- Milliseconds per day (`24 * 60 * 60 * 1000`). -/
def msPerDay : Int := 86400000

/-- Local calendar-day index of an epoch-millisecond instant, for timezone
offset `tz` (models `Date.prototype.toDateString`). -/
def calendarDay (tz t : Int) : Int :=
  (t + tz).fdiv msPerDay

/-- `videoDate.toDateString() === now.toDateString()`. -/
def sameCalendarDate (tz a b : Int) : Bool :=
  calendarDay tz a == calendarDay tz b

/-- The filter callback of `filteredAndSortedVideos`: early `return false`
when the search does not match, then the `switch (filterBy)` over the time
window (`weekAgo = now - 7 days`, `monthAgo = now - 30 days`). -/
def videoPassesFilter (term : String) (fb : TimeFilter) (tz now : Int)
    (v : SavedVideo) : Bool :=
  if !(matchesSearch term v) then false
  else
    match fb with
    | .today => sameCalendarDate tz v.timestamp now
    | .week => decide (now - 7 * msPerDay ≤ v.timestamp)
    | .month => decide (now - 30 * msPerDay ≤ v.timestamp)
    | .all => true

/-- Code-unit lexicographic strict comparison on character lists (model of a
negative `localeCompare` result). -/
def charListLt : List Char → List Char → Bool
  | [], [] => false
  | [], _ :: _ => true
  | _ :: _, [] => false
  | a :: as, b :: bs =>
      if a.toNat < b.toNat then true
      else if b.toNat < a.toNat then false
      else charListLt as bs

/-- The sort comparator of `filteredAndSortedVideos`, as the nonstrict order
`le a b ↔ comparator(a, b) ≤ 0`:
`date` → `new Date(b.timestamp) - new Date(a.timestamp)`,
`duration` → `b.duration - a.duration`,
`name` → `a.filename.localeCompare(b.filename)`. -/
def videoLe (key : SortKey) (a b : SavedVideo) : Bool :=
  match key with
  | .date => decide (b.timestamp ≤ a.timestamp)
  | .duration => decide (b.duration ≤ a.duration)
  | .name => !(charListLt b.filename.data a.filename.data)

/-- `filteredAndSortedVideos` from the source: `savedVideos.filter(...)
.sort(...)`.  JavaScript's `Array.prototype.sort` is stable, so the sort is
`List.mergeSort` with the nonstrict comparator order. -/
def filteredAndSortedVideos (term : String) (key : SortKey) (fb : TimeFilter)
    (tz now : Int) (videos : List SavedVideo) : List SavedVideo :=
  (videos.filter (videoPassesFilter term fb tz now)).mergeSort (videoLe key)

/-- Adjacent entries with equal `duration` appear in strictly ascending `id`
order (the tie-break order the specification claims). -/
def idAscendingOnTies : List SavedVideo → Bool
  | [] => true
  | [_] => true
  | a :: b :: t =>
      (!(a.duration == b.duration) || charListLt a.id.data b.id.data) &&
        idAscendingOnTies (b :: t)

/-! ## Specification-side predicates (for the refinement claim C6) -/

/-- Modelled from the spec's filter-stage words: the term (case-insensitive)
is a substring of `filename` or `sessionId`; the empty term matches
everything. -/
def specSearchMatch (term : String) (v : SavedVideo) : Bool :=
  term == "" ||
    jsIncludes (lowerStr v.filename) (lowerStr term) ||
    jsIncludes (lowerStr v.streamId) (lowerStr term)

/-- Modelled from the spec's time-filter words: `today` keeps entries whose
`createdAt` calendar date equals the current calendar date; `week` keeps
`createdAt ≥ now - 7 days`; `month` keeps `createdAt ≥ now - 30 days`;
`all` keeps everything. -/
def specTimeKeep (fb : TimeFilter) (tz now : Int) (v : SavedVideo) : Bool :=
  match fb with
  | .today => calendarDay tz v.timestamp == calendarDay tz now
  | .week => decide (now - 7 * msPerDay ≤ v.timestamp)
  | .month => decide (now - 30 * msPerDay ≤ v.timestamp)
  | .all => true

/-- The spec's own scenario, run through the code: chunks emitted at ticks
1, 2 and 3 (each `dataavailable` closely followed by a duration tick), stop
at tick 3.4 — so the recorder flushes a final non-empty in-flight chunk. -/
def exampleScenarioRun : BState :=
  stopStreaming "s" 9 "u" (some ⟨1⟩)
    (runEvents [.data ⟨2⟩, .tick, .data ⟨2⟩, .tick, .data ⟨2⟩, .tick]
      (startStreaming (mountedBroadcaster (some []) ⟨[], []⟩)))

/-- A catalog entry with id "b" and duration 5 (stored first). -/
def tieEntryB : SavedVideo := ⟨"b", "v2.webm", "u2", 0, 5, "s"⟩

/-- A catalog entry with id "a" and the same duration 5 (stored second). -/
def tieEntryA : SavedVideo := ⟨"a", "v1.webm", "u1", 0, 5, "s"⟩

/-! ## Helper lemmas -/

theorem matchesSearch_empty (v : SavedVideo) : matchesSearch "" v = true := by
  have h : (lowerStr "").data = [] := rfl
  simp [matchesSearch, jsIncludes, h, List.nil_infix]

@[simp] theorem saveRecording_stream (sid : String) (now : Int) (url : String)
    (s : BState) : (saveRecording sid now url s).stream = s.stream := by
  unfold saveRecording; split <;> rfl

@[simp] theorem saveRecording_mrState (sid : String) (now : Int) (url : String)
    (s : BState) : (saveRecording sid now url s).mrState = s.mrState := by
  unfold saveRecording; split <;> rfl

@[simp] theorem saveRecording_isStreaming (sid : String) (now : Int)
    (url : String) (s : BState) :
    (saveRecording sid now url s).isStreaming = s.isStreaming := by
  unfold saveRecording; split <;> rfl

@[simp] theorem saveRecording_isRecording (sid : String) (now : Int)
    (url : String) (s : BState) :
    (saveRecording sid now url s).isRecording = s.isRecording := by
  unfold saveRecording; split <;> rfl

@[simp] theorem saveRecording_timerActive (sid : String) (now : Int)
    (url : String) (s : BState) :
    (saveRecording sid now url s).timerActive = s.timerActive := by
  unfold saveRecording; split <;> rfl

@[simp] theorem saveRecording_recordedChunks (sid : String) (now : Int)
    (url : String) (s : BState) :
    (saveRecording sid now url s).recordedChunks = s.recordedChunks := by
  unfold saveRecording; split <;> rfl

@[simp] theorem saveRecording_recordingDuration (sid : String) (now : Int)
    (url : String) (s : BState) :
    (saveRecording sid now url s).recordingDuration = s.recordingDuration := by
  unfold saveRecording; split <;> rfl

@[simp] theorem onDataAvailable_stream (c : Chunk) (s : BState) :
    (onDataAvailable c s).stream = s.stream := by
  unfold onDataAvailable; split <;> rfl

@[simp] theorem onDataAvailable_mrState (c : Chunk) (s : BState) :
    (onDataAvailable c s).mrState = s.mrState := by
  unfold onDataAvailable; split <;> rfl

@[simp] theorem onDataAvailable_isStreaming (c : Chunk) (s : BState) :
    (onDataAvailable c s).isStreaming = s.isStreaming := by
  unfold onDataAvailable; split <;> rfl

@[simp] theorem onDataAvailable_isRecording (c : Chunk) (s : BState) :
    (onDataAvailable c s).isRecording = s.isRecording := by
  unfold onDataAvailable; split <;> rfl

@[simp] theorem onDataAvailable_timerActive (c : Chunk) (s : BState) :
    (onDataAvailable c s).timerActive = s.timerActive := by
  unfold onDataAvailable; split <;> rfl

@[simp] theorem onDataAvailable_storage (c : Chunk) (s : BState) :
    (onDataAvailable c s).storage = s.storage := by
  unfold onDataAvailable; split <;> rfl

@[simp] theorem onDataAvailable_recordingDuration (c : Chunk) (s : BState) :
    (onDataAvailable c s).recordingDuration = s.recordingDuration := by
  unfold onDataAvailable; split <;> rfl

theorem stopTracks_idem (o : Option (List Track)) :
    stopTracks (stopTracks o) = stopTracks o := by
  cases o <;> simp [stopTracks, List.map_map, Function.comp]

theorem stopStreaming_stream (sid : String) (now : Int) (url : String)
    (f : Option Chunk) (s : BState) :
    (stopStreaming sid now url f s).stream = stopTracks s.stream := by
  cases f <;> simp only [stopStreaming] <;> split <;> simp

theorem stopStreaming_mrState (sid : String) (now : Int) (url : String)
    (f : Option Chunk) (s : BState) :
    (stopStreaming sid now url f s).mrState = .inactive := by
  cases hmr : s.mrState <;> cases f <;> simp [stopStreaming, hmr]

theorem stopStreaming_isStreaming (sid : String) (now : Int) (url : String)
    (f : Option Chunk) (s : BState) :
    (stopStreaming sid now url f s).isStreaming = false := by
  cases f <;> simp only [stopStreaming] <;> split <;> simp

theorem stopStreaming_isRecording (sid : String) (now : Int) (url : String)
    (f : Option Chunk) (s : BState) :
    (stopStreaming sid now url f s).isRecording = false := by
  cases f <;> simp only [stopStreaming] <;> split <;> simp

theorem stopStreaming_timerActive (sid : String) (now : Int) (url : String)
    (f : Option Chunk) (s : BState) :
    (stopStreaming sid now url f s).timerActive = false := by
  cases f <;> rfl

/-! ## Claim theorems -/

theorem tracksAllStopped_of_stopTracks (s : BState) (o : Option (List Track))
    (h : s.stream = stopTracks o) : tracksAllStopped s = true := by
  unfold tracksAllStopped
  rw [h]
  cases o with
  | none => rfl
  | some ts => simp [stopTracks, List.all_eq_true, List.mem_map]

/-- C8: `stopStreaming` is idempotent — running it on an already-stopped
broadcaster changes nothing and raises no error — and after the first
invocation every track of the capture stream is stopped. -/
theorem stop_streaming_idempotent (sid1 sid2 : String) (now1 now2 : Int)
    (url1 url2 : String) (f1 f2 : Option Chunk) (s : BState) :
    tracksAllStopped (stopStreaming sid1 now1 url1 f1 s) = true ∧
      stopStreaming sid2 now2 url2 f2 (stopStreaming sid1 now1 url1 f1 s) =
        stopStreaming sid1 now1 url1 f1 s := by
  have hstr := stopStreaming_stream sid1 now1 url1 f1 s
  constructor
  · exact tracksAllStopped_of_stopTracks _ _ hstr
  · have hmr := stopStreaming_mrState sid1 now1 url1 f1 s
    have hS := stopStreaming_isStreaming sid1 now1 url1 f1 s
    have hR := stopStreaming_isRecording sid1 now1 url1 f1 s
    have hT := stopStreaming_timerActive sid1 now1 url1 f1 s
    generalize hgen : stopStreaming sid1 now1 url1 f1 s = t at hmr hS hR hT hstr ⊢
    obtain ⟨iS, iR, dur, osd, str, mr, ch, tim, stg⟩ := t
    simp only at hmr hS hR hT hstr
    subst hS hR hT hmr
    cases f2 <;> simp [stopStreaming, hstr, stopTracks_idem]

/-- C6: an entry passes the filter stage of `filteredAndSortedVideos` iff the
search term (case-insensitive, empty term matching everything) is a substring
of its filename or its stream id AND the entry passes the time filter
(`today` = same calendar date, `week` = within 7 days, `month` = within
30 days, `all` = everything); the two filters are conjunctive. -/
theorem filter_stage_matches_spec (term : String) (fb : TimeFilter)
    (tz now : Int) (v : SavedVideo) :
    videoPassesFilter term fb tz now v =
      (specSearchMatch term v && specTimeKeep fb tz now v) := by
  have hsplit : specSearchMatch term v = ((term == "") || matchesSearch term v) := by
    simp [specSearchMatch, matchesSearch, Bool.or_assoc]
  rcases hm : matchesSearch term v with _ | _
  · have hterm : (term == "") = false := by
      rcases hbe : term == "" with _ | _
      · rfl
      · have ht : term = "" := by simpa using hbe
        rw [ht, matchesSearch_empty v] at hm
        exact absurd hm (by simp)
    simp [videoPassesFilter, hm, hsplit, hterm]
  · have : videoPassesFilter term fb tz now v = specTimeKeep fb tz now v := by
      cases fb <;> simp [videoPassesFilter, hm, specTimeKeep, sameCalendarDate]
    rw [this, hsplit, hm]
    simp

/-- C7: after `deleteVideo id`, the persisted `'savedVideos'` collection read
back by `loadSavedVideos` contains no entry with that id; removing an id that
is not present leaves the state list and the persisted list equal to the
prior state list; and removing the same id twice leaves both unchanged from
the first removal.  `deleteVideo` is a total function, so no error is
raised. -/
theorem remove_then_list_free_of_id (videoId : String) (g : GalleryState) :
    ((loadList (deleteVideo videoId g).storage).all fun v => v.id != videoId) = true
    ∧ (g.savedVideos.all (fun v => v.id != videoId) = true →
        (deleteVideo videoId g).savedVideos = g.savedVideos ∧
          loadList (deleteVideo videoId g).storage = g.savedVideos)
    ∧ loadList (deleteVideo videoId (deleteVideo videoId g)).storage =
        loadList (deleteVideo videoId g).storage
    ∧ (deleteVideo videoId (deleteVideo videoId g)).savedVideos =
        (deleteVideo videoId g).savedVideos := by
  refine ⟨?_, ?_, ?_, ?_⟩
  · simp [deleteVideo, loadList, List.all_eq_true, List.mem_filter]
  · intro h
    have hself : g.savedVideos.filter (fun v => v.id != videoId) = g.savedVideos :=
      List.filter_eq_self.mpr (by simpa [List.all_eq_true] using h)
    exact ⟨by simp [deleteVideo, hself], by simp [deleteVideo, loadList, hself]⟩
  · simp [deleteVideo, loadList, List.filter_filter]
  · simp [deleteVideo, List.filter_filter]

/-- Witness for C7 at a concrete gallery state and an absent id. -/
theorem remove_then_list_free_of_id_witness :
    ((loadList (deleteVideo "z"
        ⟨⟨[], [⟨"a", "f.webm", "u", 0, 3, "s"⟩]⟩,
          [⟨"a", "f.webm", "u", 0, 3, "s"⟩], none⟩).storage).all
      fun v => v.id != "z") = true
    ∧ (deleteVideo "z"
        ⟨⟨[], [⟨"a", "f.webm", "u", 0, 3, "s"⟩]⟩,
          [⟨"a", "f.webm", "u", 0, 3, "s"⟩], none⟩).savedVideos =
        [⟨"a", "f.webm", "u", 0, 3, "s"⟩] :=
  ⟨(remove_then_list_free_of_id "z" _).1,
    ((remove_then_list_free_of_id "z"
        ⟨⟨[], [⟨"a", "f.webm", "u", 0, 3, "s"⟩]⟩,
          [⟨"a", "f.webm", "u", 0, 3, "s"⟩], none⟩).2.1 (by decide)).1⟩

/-- C9: after `deleteVideo id`, the gallery's selected video is never an
entry whose id equals the removed id. -/
theorem delete_clears_matching_selection (videoId : String) (g : GalleryState) :
    selectedIdDiffers videoId (deleteVideo videoId g) = true := by
  cases hsel : g.selectedVideo with
  | none => simp [deleteVideo, selectedIdDiffers, hsel]
  | some v =>
      rcases hbe : v.id == videoId with _ | _ <;>
        simp [deleteVideo, selectedIdDiffers, hsel, hbe]
      intro hcontra
      rw [hcontra] at hbe
      simp at hbe

/-- C10: when `saveRecording` persists (at least one chunk was collected),
the post-save `'streamRecordings'` collection is the prior collection with
exactly one record appended at the end: its length grows by one, every prior
record is still present, unmodified, at its old position, the last record is
the newly built one, and the other collection (`'savedVideos'`) is
untouched. -/
theorem save_appends_one_record (sid : String) (now : Int) (url : String)
    (s : BState) (h : s.recordedChunks ≠ []) :
    (saveRecording sid now url s).storage.streamRecordings =
        s.storage.streamRecordings ++
          [newRecording sid now url s.onstopDuration]
    ∧ (saveRecording sid now url s).storage.streamRecordings.length =
        s.storage.streamRecordings.length + 1
    ∧ (saveRecording sid now url s).storage.streamRecordings.take
        s.storage.streamRecordings.length = s.storage.streamRecordings
    ∧ (saveRecording sid now url s).storage.streamRecordings.getLast? =
        some (newRecording sid now url s.onstopDuration)
    ∧ (saveRecording sid now url s).storage.savedVideos =
        s.storage.savedVideos := by
  have hlen : ¬s.recordedChunks.length = 0 := by
    simpa [List.length_eq_zero] using h
  refine ⟨?_, ?_, ?_, ?_, ?_⟩ <;>
    simp [saveRecording, hlen, List.take_left, List.getLast?_concat]

/-- Witness for C10 at a concrete broadcaster state with one chunk, one
previously stored record, and distinct live and captured durations (the
record uses the captured one). -/
theorem save_appends_one_record_witness :
    (saveRecording "s" 3 "u"
        { mountedBroadcaster (some []) ⟨[⟨0, "x", "f", 0, 2, "u0"⟩], []⟩ with
            recordedChunks := [⟨1⟩]
            recordingDuration := 7
            onstopDuration := 2 }).storage.streamRecordings =
      [⟨0, "x", "f", 0, 2, "u0"⟩, newRecording "s" 3 "u" 2] :=
  (save_appends_one_record "s" 3 "u"
    { mountedBroadcaster (some []) ⟨[⟨0, "x", "f", 0, 2, "u0"⟩], []⟩ with
        recordedChunks := [⟨1⟩]
        recordingDuration := 7
        onstopDuration := 2 } (by decide)).1

/-- C3 counterexample: a started run with duration ticks but zero collected
chunks, stopped with no in-flight data, persists nothing — the
`'streamRecordings'` collection stays empty, so no catalog entry is created
(the claim says an entry with `durationSeconds = 0` is still created). -/
theorem zero_chunk_stop_creates_no_entry :
    (stopStreaming "abc" 5 "u" none
        (runEvents [.tick, .tick]
          (startStreaming
            (mountedBroadcaster (some [⟨false⟩])
              ⟨[], []⟩)))).storage.streamRecordings = [] := by
  rfl

/-- C3 amended: a run stopped with zero collected chunks (and no non-empty
in-flight flush) creates no catalog entry and raises no error —
`saveRecording` returns early, leaving the persisted store untouched. -/
theorem zero_chunk_stop_is_silent_skip (sid : String) (now : Int)
    (url : String) (flush : Option Chunk) (s : BState)
    (h : s.recordedChunks = []) (hf : ∀ c, flush = some c → c.size = 0) :
    (stopStreaming sid now url flush s).storage = s.storage := by
  obtain ⟨iS, iR, dur, osd, str, mr, ch, tim, stg⟩ := s
  simp only at h
  subst h
  cases flush with
  | none => cases mr <;> simp [stopStreaming, saveRecording]
  | some c =>
      have hc : c.size = 0 := hf c rfl
      cases mr <;> simp [stopStreaming, saveRecording, onDataAvailable, hc]

/-- Witness for the amended C3 at a concrete stopped run. -/
theorem zero_chunk_stop_is_silent_skip_witness :
    (stopStreaming "a" 0 "u" none
        (mountedBroadcaster none ⟨[], []⟩)).storage =
      (⟨[], []⟩ : LocalStorage) :=
  zero_chunk_stop_is_silent_skip "a" 0 "u" none
    (mountedBroadcaster none ⟨[], []⟩) rfl (fun _ hc => nomatch hc)

/-- C4 counterexample: `startStreaming` invoked with no capture stream
(`streamRef.current` null) returns with the state entirely unchanged — no
`InvalidStateError`, no effect; and invoked mid-run (already `Recording`,
with a collected chunk and a nonzero duration) it does not fail either — it
restarts the run, resetting the chunk list and duration. -/
theorem start_streaming_never_errors_at_concrete_inputs :
    startStreaming (mountedBroadcaster none ⟨[], []⟩) =
        mountedBroadcaster none ⟨[], []⟩
    ∧ (runEvents [.data ⟨7⟩, .tick]
        (startStreaming
          (mountedBroadcaster (some [⟨false⟩]) ⟨[], []⟩))).isRecording = true
    ∧ (runEvents [.data ⟨7⟩, .tick]
        (startStreaming
          (mountedBroadcaster (some [⟨false⟩]) ⟨[], []⟩))).recordedChunks =
        [⟨7⟩]
    ∧ (startStreaming (runEvents [.data ⟨7⟩, .tick]
        (startStreaming
          (mountedBroadcaster (some [⟨false⟩]) ⟨[], []⟩)))).isRecording = true
    ∧ (startStreaming (runEvents [.data ⟨7⟩, .tick]
        (startStreaming
          (mountedBroadcaster (some [⟨false⟩]) ⟨[], []⟩)))).recordedChunks = []
    ∧ (startStreaming (runEvents [.data ⟨7⟩, .tick]
        (startStreaming
          (mountedBroadcaster (some [⟨false⟩]) ⟨[], []⟩)))).recordingDuration =
        0 :=
  ⟨rfl, rfl, rfl, rfl, rfl, rfl⟩

/-- C4 amended: `startStreaming` surfaces no error in any state: with no
capture stream it is a silent no-op, and with a stream present (including
while already recording) it (re)starts the run, resetting the duration and
the chunk list, leaving the persisted store untouched. -/
theorem start_streaming_silently_noops_or_restarts (s : BState) :
    (s.stream = none → startStreaming s = s) ∧
      (∀ ts, s.stream = some ts →
        (startStreaming s).isRecording = true ∧
          (startStreaming s).recordedChunks = [] ∧
          (startStreaming s).recordingDuration = 0 ∧
          (startStreaming s).storage = s.storage) := by
  constructor
  · intro h
    simp [startStreaming, h]
  · intro ts h
    simp [startStreaming, h]

/-- Witness for the amended C4 at concrete states with and without a
stream. -/
theorem start_streaming_silently_noops_or_restarts_witness :
    startStreaming (mountedBroadcaster none ⟨[⟨9, "q", "g", 1, 4, "v"⟩], []⟩) =
        mountedBroadcaster none ⟨[⟨9, "q", "g", 1, 4, "v"⟩], []⟩
    ∧ (startStreaming
        (mountedBroadcaster (some [⟨false⟩, ⟨false⟩]) ⟨[], []⟩)).isRecording =
        true :=
  ⟨(start_streaming_silently_noops_or_restarts _).1 rfl,
    ((start_streaming_silently_noops_or_restarts
        (mountedBroadcaster (some [⟨false⟩, ⟨false⟩]) ⟨[], []⟩)).2
      [⟨false⟩, ⟨false⟩] rfl).1⟩

/-- C1: the completion hand-off does persist a record, but under the
`'streamRecordings'` key with its own field shape, while the gallery's load
path reads the `'savedVideos'` key — so after a completed one-chunk run the
store holds exactly the new record, yet `loadSavedVideos`' read of the
catalog is still empty: the saved entry is never visible to the gallery's
`list()`. -/
theorem saved_recording_invisible_to_gallery :
    (stopStreaming "abc" 5 "u" none
        (onDataAvailable ⟨100⟩
          (startStreaming
            (mountedBroadcaster (some [⟨false⟩])
              ⟨[], []⟩)))).storage.streamRecordings =
        [newRecording "abc" 5 "u" 0]
    ∧ loadList
        (stopStreaming "abc" 5 "u" none
          (onDataAvailable ⟨100⟩
            (startStreaming
              (mountedBroadcaster (some [⟨false⟩])
                ⟨[], []⟩)))).storage = [] :=
  ⟨rfl, rfl⟩

theorem runEvents_cons (e : REvent) (t : List REvent) (s : BState) :
    runEvents (e :: t) s = runEvents t (stepEvent e s) := rfl

theorem runEvents_spec (evs : List REvent) (s : BState)
    (h : s.timerActive = true) :
    (runEvents evs s).recordingDuration = s.recordingDuration + countTicks evs
    ∧ (runEvents evs s).onstopDuration = s.onstopDuration
    ∧ (runEvents evs s).recordedChunks = s.recordedChunks ++ emittedChunks evs
    ∧ (runEvents evs s).isStreaming = s.isStreaming
    ∧ (runEvents evs s).isRecording = s.isRecording
    ∧ (runEvents evs s).stream = s.stream
    ∧ (runEvents evs s).mrState = s.mrState
    ∧ (runEvents evs s).timerActive = true
    ∧ (runEvents evs s).storage = s.storage := by
  induction evs generalizing s with
  | nil => simp [runEvents, countTicks, emittedChunks, h]
  | cons e t ih =>
      cases e with
      | tick =>
          have hstep : stepEvent .tick s =
              { s with recordingDuration := s.recordingDuration + 1 } := by
            simp [stepEvent, onDurationTick, h]
          obtain ⟨h1, h2, h3, h4, h5, h6, h7, h8, h9⟩ :=
            ih { s with recordingDuration := s.recordingDuration + 1 } h
          rw [runEvents_cons, hstep]
          simp only [countTicks, emittedChunks] at h1 h2 h3 h4 h5 h6 h7 h8 h9 ⊢
          refine ⟨?_, ?_, ?_, ?_, ?_, ?_, ?_, ?_, ?_⟩ <;>
            simp [h1, h2, h3, h4, h5, h6, h7, h8, h9]
          omega
      | data c =>
          rw [runEvents_cons]
          by_cases hc : 0 < c.size
          · have hstep : stepEvent (.data c) s =
                { s with recordedChunks := s.recordedChunks ++ [c] } := by
              simp [stepEvent, onDataAvailable, hc]
            obtain ⟨h1, h2, h3, h4, h5, h6, h7, h8, h9⟩ :=
              ih { s with recordedChunks := s.recordedChunks ++ [c] } h
            rw [hstep]
            simp only [countTicks, emittedChunks, if_pos hc]
              at h1 h2 h3 h4 h5 h6 h7 h8 h9 ⊢
            refine ⟨?_, ?_, ?_, ?_, ?_, ?_, ?_, ?_, ?_⟩ <;>
              simp [h1, h2, h3, h4, h5, h6, h7, h8, h9]
          · have hstep : stepEvent (.data c) s = s := by
              simp [stepEvent, onDataAvailable, hc]
            have hrec := ih s h
            rw [hstep]
            simp only [countTicks, emittedChunks, if_neg hc] at hrec ⊢
            exact hrec

/-- C2 amended: for every run started from a fresh mount, the live duration
counter does count the duration-interval ticks, but the persisted
`durationSeconds` is the stale `recordingDuration` snapshot that the
`onstop` closure captured when the run started — 0 for a first run — while
the artifact consists of every non-empty emitted chunk in emission order
plus the non-empty in-flight chunk flushed at stop.  The persisted duration
is thus independent of both the tick count and the chunk count. -/
theorem recorded_duration_is_stale_capture (ts : List Track)
    (st : LocalStorage) (evs : List REvent) (sid : String) (now : Int)
    (url : String) (flush : Option Chunk)
    (h : emittedChunks evs ++ flushChunks flush ≠ []) :
    (runEvents evs
        (startStreaming (mountedBroadcaster (some ts) st))).recordingDuration
      = countTicks evs
    ∧ (stopStreaming sid now url flush
        (runEvents evs
          (startStreaming (mountedBroadcaster (some ts) st)))).recordedChunks
      = emittedChunks evs ++ flushChunks flush
    ∧ (stopStreaming sid now url flush
        (runEvents evs
          (startStreaming
            (mountedBroadcaster (some ts) st)))).storage.streamRecordings
      = st.streamRecordings ++ [newRecording sid now url 0] := by
  have spec := runEvents_spec evs
    (startStreaming (mountedBroadcaster (some ts) st)) rfl
  generalize hgen :
    runEvents evs (startStreaming (mountedBroadcaster (some ts) st)) = t
      at spec ⊢
  obtain ⟨iS, iR, dur, osd, str, mr, ch, tim, stg⟩ := t
  simp [startStreaming, mountedBroadcaster] at spec
  obtain ⟨hdur, hosd, hch, hS, hR, hstr, hmr, htim, hstg⟩ := spec
  subst hdur hosd hch hS hR hstr hmr htim hstg
  cases flush with
  | none =>
      have hne : ¬(emittedChunks evs).length = 0 := by
        simpa [List.length_eq_zero, flushChunks] using h
      simp [stopStreaming, saveRecording, flushChunks, hne]
  | some c =>
      by_cases hc : 0 < c.size
      · have hne : ¬(emittedChunks evs ++ [c]).length = 0 := by simp
        simp [stopStreaming, saveRecording, onDataAvailable, flushChunks, hc,
          hne]
      · have hne : ¬(emittedChunks evs).length = 0 := by
          simpa [List.length_eq_zero, flushChunks, hc] using h
        simp [stopStreaming, saveRecording, onDataAvailable, flushChunks, hc,
          hne]

/-- Witness for the amended C2: a first run with one non-empty chunk and one
duration tick shows the live counter at 1 but persists
`durationSeconds = 0`, the stale start capture. -/
theorem recorded_duration_is_stale_capture_witness :
    (runEvents [.data ⟨3⟩, .tick]
        (startStreaming
          (mountedBroadcaster (some []) ⟨[], []⟩))).recordingDuration = 1
    ∧ (stopStreaming "s" 2 "u" none
        (runEvents [.data ⟨3⟩, .tick]
          (startStreaming
            (mountedBroadcaster (some []) ⟨[], []⟩)))).recordedChunks = [⟨3⟩]
    ∧ (stopStreaming "s" 2 "u" none
        (runEvents [.data ⟨3⟩, .tick]
          (startStreaming
            (mountedBroadcaster (some [])
              ⟨[], []⟩)))).storage.streamRecordings =
        [newRecording "s" 2 "u" 0] :=
  recorded_duration_is_stale_capture [] ⟨[], []⟩ [.data ⟨3⟩, .tick] "s" 2 "u"
    none (by decide)

/-- C2 counterexample: on the spec's own example scenario (chunks at ticks
1, 2, 3; stop at tick 3.4, which flushes a non-empty in-flight chunk) the
persisted entry has `durationSeconds = 0` — the stale snapshot the `onstop`
closure captured at start — while the artifact holds 4 chunks: the
persisted duration equals neither the number of chunks collected nor the
3 the claim's scenario expects. -/
theorem persisted_duration_not_chunk_count :
    exampleScenarioRun.storage.streamRecordings.map (fun r => r.duration) = [0]
    ∧ exampleScenarioRun.recordedChunks.length = 4
    ∧ exampleScenarioRun.storage.streamRecordings.map (fun r => r.duration) ≠
        [exampleScenarioRun.recordedChunks.length]
    ∧ exampleScenarioRun.storage.streamRecordings.map (fun r => r.duration) ≠
        [3] :=
  ⟨rfl, rfl, by decide, by decide⟩

theorem videoLe_duration_trans (a b c : SavedVideo)
    (hab : videoLe .duration a b = true) (hbc : videoLe .duration b c = true) :
    videoLe .duration a c = true := by
  simp [videoLe] at hab hbc ⊢
  omega

theorem videoLe_duration_total (a b : SavedVideo) :
    (videoLe .duration a b || videoLe .duration b a) = true := by
  simp [videoLe]
  omega

/-- C5 amended: the duration-sorted query result is monotonically
non-increasing in `durationSeconds`, and entries with equal
`durationSeconds` appear in their original catalog order (the sort is
stable) — which is deterministic on identical input, but is not ascending
id order. -/
theorem duration_sort_monotone_and_stable (term : String) (fb : TimeFilter)
    (tz now : Int) (videos : List SavedVideo) :
    ((filteredAndSortedVideos term .duration fb tz now videos).Pairwise
        fun a b => b.duration ≤ a.duration)
    ∧ ∀ d : Nat,
        (filteredAndSortedVideos term .duration fb tz now videos).filter
            (fun v => v.duration == d)
          = (videos.filter (videoPassesFilter term fb tz now)).filter
              (fun v => v.duration == d) := by
  constructor
  · have hs := List.sorted_mergeSort
      videoLe_duration_trans videoLe_duration_total
      (videos.filter (videoPassesFilter term fb tz now))
    simp only [filteredAndSortedVideos]
    exact hs.imp fun {a b} hab => by simpa [videoLe] using hab
  · intro d
    simp only [filteredAndSortedVideos]
    have hpair : ((videos.filter (videoPassesFilter term fb tz now)).filter
        fun v => v.duration == d).Pairwise
        (fun a b => videoLe .duration a b = true) := by
      apply List.pairwise_of_forall_mem_list
      intro a ha b hb
      simp [List.mem_filter] at ha hb
      simp [videoLe]
      omega
    have hsub1 := List.sublist_mergeSort
      videoLe_duration_trans videoLe_duration_total hpair
      (List.filter_sublist (videos.filter (videoPassesFilter term fb tz now)))
    have hsub2 : ((videos.filter (videoPassesFilter term fb tz now)).filter
        fun v => v.duration == d).Sublist
        (((videos.filter (videoPassesFilter term fb tz now)).mergeSort
            (videoLe .duration)).filter fun v => v.duration == d) := by
      have h2 := hsub1.filter fun v => v.duration == d
      simpa [List.filter_filter] using h2
    have hlen : (((videos.filter (videoPassesFilter term fb tz now)).mergeSort
        (videoLe .duration)).filter fun v => v.duration == d).length
        = ((videos.filter (videoPassesFilter term fb tz now)).filter
            fun v => v.duration == d).length :=
      ((List.mergeSort_perm (videos.filter (videoPassesFilter term fb tz now))
        (videoLe .duration)).filter _).length_eq
    exact (hsub2.eq_of_length hlen.symm).symm

/-- C5 counterexample: on a catalog holding id "b" before id "a", both of
duration 5, the duration sort returns them in stored order ["b", "a"] (the
sort is stable and has no id tie-break), not in ascending id order — the
claimed tie-break property is false on this input. -/
theorem duration_ties_not_id_ascending :
    (filteredAndSortedVideos "" .duration .all 0 0 [tieEntryB, tieEntryA]).map
        (fun v => v.id) = ["b", "a"]
    ∧ idAscendingOnTies
        (filteredAndSortedVideos "" .duration .all 0 0
          [tieEntryB, tieEntryA]) = false
    ∧ charListLt "a".data "b".data = true := by
  have hf : [tieEntryB, tieEntryA].filter (videoPassesFilter "" .all 0 0) =
      [tieEntryB, tieEntryA] := rfl
  have hsort : filteredAndSortedVideos "" .duration .all 0 0
      [tieEntryB, tieEntryA] = [tieEntryB, tieEntryA] := by
    simp only [filteredAndSortedVideos, hf]
    simp [List.mergeSort, List.merge, videoLe, tieEntryB, tieEntryA]
  rw [hsort]
  exact ⟨rfl, by decide, by decide⟩

end Hosting
